import Mathlib

/-!
Verification of the analytics and classification core of the stock
dashboard (`app.py`).

The embedding models a pandas `DataFrame` of daily prices as a
`PriceTable`: an ordered association list from column name (ticker
symbol) to a column of optional rationals.  A cell holding `none`
models a value that is not a finite number (a missing price, pandas
`NaN`, or the non-finite `inf`/`NaN` results that float division by
zero produces); a cell holding `some q` models the finite float value
`q`.  Arithmetic on cells is lifted so that `none` is absorbing,
matching pandas NaN propagation, and division by zero yields `none`
(pandas produces `inf`/`NaN` there, i.e. a non-finite value, not an
error).  Operations that raise in Python (`DataFrame.drop` on a
missing column, `iloc[0]` on an empty frame, matrix product with a
shape mismatch) are modelled in the `Except` monad.
-/

/-- A cell of the price table: `some q` is a finite price, `none` is a
missing / non-finite value (pandas `NaN` or `inf`). -/
abbrev Val := Option ℚ

/-- One column of prices, rows in ascending date order. -/
abbrev Col := List Val

/-- Lifted addition: `NaN` absorbs, as in pandas. -/
def vadd : Val → Val → Val
  | some a, some b => some (a + b)
  | _, _ => none

/-- Lifted subtraction: `NaN` absorbs, as in pandas. -/
def vsub : Val → Val → Val
  | some a, some b => some (a - b)
  | _, _ => none

/-- Lifted multiplication: `NaN` absorbs, as in pandas. -/
def vmul : Val → Val → Val
  | some a, some b => some (a * b)
  | _, _ => none

/-- Lifted division: `NaN` absorbs; dividing a finite value by zero
gives a non-finite float (`inf` or `NaN`) in pandas, modelled `none`.
No exception is raised. -/
def vdiv : Val → Val → Val
  | some a, some b => if b = 0 then none else some (a / b)
  | _, _ => none

/-- Sum of a list of cells (`NaN` absorbing). -/
def vsum (l : List Val) : Val := l.foldr vadd (some 0)

/-- A pandas `DataFrame` of prices: ordered columns, each a name
paired with its data. -/
structure PriceTable where
  cols : List (String × Col)
deriving DecidableEq

/-- Number of rows of the frame (length of its first column; pandas
keeps all columns the same length). -/
def nrows (tbl : PriceTable) : Nat :=
  match tbl.cols with
  | [] => 0
  | p :: _ => p.2.length

/-- All columns have the row count of the table (always true of a real
`DataFrame`). -/
abbrev WF (tbl : PriceTable) : Prop := ∀ p ∈ tbl.cols, p.2.length = nrows tbl

/-- Lookup in a name-keyed association list (first match wins). -/
def lookupPair {α : Type} (l : List (String × α)) (s : String) : Option α :=
  (l.find? (fun p => p.1 == s)).map (fun p => p.2)

/-- Column lookup, `df[name]`. -/
def getCol (tbl : PriceTable) (s : String) : Option Col := lookupPair tbl.cols s

/-- `df.drop(name, axis=1)`: removes the column, raising `KeyError`
when it is absent (pandas default `errors="raise"`). -/
def dropCol (tbl : PriceTable) (name : String) : Except String PriceTable :=
  if tbl.cols.any (fun p => p.1 == name) then
    .ok ⟨tbl.cols.filter (fun p => !(p.1 == name))⟩
  else .error ("KeyError: " ++ name ++ " not found in axis")

/-- `df[name] = col`: overwrites the column in place when present,
otherwise appends it as the last column. -/
def setCol (tbl : PriceTable) (name : String) (c : Col) : PriceTable :=
  if tbl.cols.any (fun p => p.1 == name) then
    ⟨tbl.cols.map (fun p => if p.1 == name then (name, c) else p)⟩
  else ⟨tbl.cols ++ [(name, c)]⟩

/-- Apply a column transformation to every column. -/
def mapCols (f : Col → Col) (tbl : PriceTable) : PriceTable :=
  ⟨tbl.cols.map (fun p => (p.1, f p.2))⟩

/-- The values of row `t`, one per column, in column order. -/
def rowAt (tbl : PriceTable) (t : Nat) : List Val :=
  tbl.cols.map (fun p => p.2.getD t none)

/-- Row-wise dot product of a cell row with a rational weight vector. -/
def dotRow (vs : List Val) (ws : List ℚ) : Val :=
  vsum (List.zipWith (fun v w => vmul v (some w)) vs ws)

/-- `df @ weights` (numpy matrix product of the frame with a weight
vector): per-row dot product; raises on a shape mismatch. -/
def matvec (tbl : PriceTable) (ws : List ℚ) : Except String Col :=
  if tbl.cols.length = ws.length then
    .ok ((List.range (nrows tbl)).map (fun t => dotRow (rowAt tbl t) ws))
  else .error "ValueError: matmul shape mismatch"

/-- One column of `100 * prices / prices.iloc[0]`: every entry divided
by the first entry of the same column, times 100. -/
def normCol (c : Col) : Col :=
  c.map (fun v => vdiv (vmul (some 100) v) (c.headD none))

/-- `100 * prices / prices.iloc[0]`: `iloc[0]` raises `IndexError` on
a frame with zero rows, otherwise each column is scaled by its first
entry. -/
def normTable (tbl : PriceTable) : Except String PriceTable :=
  if nrows tbl = 0 then .error "IndexError: index 0 is out of bounds"
  else .ok (mapCols normCol tbl)

/-- One column of `prices.pct_change()[1:]`: entry `t-1` of the result
is `price[t]/price[t-1] - 1`; the slice `[1:]` drops the first row
(whose change is undefined). -/
def pctChangeDrop (c : Col) : Col :=
  List.zipWith (fun cur prev => vsub (vdiv cur prev) (some 1)) c.tail c

/-- Sample variance with the `N-1` denominator of the non-null entries
of a column, skipping `NaN` as pandas `std` does; `none` (pandas `NaN`)
when fewer than two observations remain. -/
def colVarQ (c : Col) : Option ℚ :=
  let xs := c.filterMap id
  if xs.length < 2 then none
  else some (((xs.map (fun x => (x - xs.sum / (xs.length : ℚ)) ^ 2)).sum)
      / ((xs.length : ℚ) - 1))

/-- Pandas `Series.std()`: square root of the sample variance. -/
noncomputable def colStd (c : Col) : Option ℝ := (colVarQ c).map Real.sqrt

/-- One entry of `returns.std() * np.sqrt(252)`. -/
noncomputable def colVol (c : Col) : Option ℝ :=
  (colStd c).map (fun s => s * Real.sqrt 252)

/-- `(norm_prices.iloc[-1] - 100) / 100`, one entry per column. -/
def retsOf (normTbl : PriceTable) : List (String × Val) :=
  normTbl.cols.map (fun p =>
    (p.1, vdiv (vsub (p.2.getLastD none) (some 100)) (some 100)))

/-- The data computed by `build_main` (the analytics pass), before the
rendering code consumes it: the mutated price frame (which the
`prices["portfolio"] = ...` assignment extended), the normalized
frame, the returns frame and the cumulative returns.  Volatility is
derived from `returnsTbl` by `volsOf` below. -/
structure MainResult where
  prices : PriceTable
  normPrices : PriceTable
  returnsTbl : PriceTable
  rets : List (String × Val)
deriving DecidableEq

/-- The first line of `build_main`:
`weights = np.ones(len(tickers)) / len(tickers)`. -/
def weightsOf (tickers : List String) : List ℚ :=
  List.replicate tickers.length ((1 : ℚ) / (tickers.length : ℚ))

/-- The analytics computation of `build_main` in `app.py`:

    weights = np.ones(len(tickers)) / len(tickers)
    prices["portfolio"] = prices.drop("IBOV", axis=1) @ weights
    norm_prices = 100 * prices / prices.iloc[0]
    returns = prices.pct_change()[1:]
    vols = returns.std() * np.sqrt(252)
    rets = (norm_prices.iloc[-1] - 100) / 100

Python exceptions are modelled as `Except.error`. -/
def build_main (tickers : List String) (prices : PriceTable) :
    Except String MainResult :=
  match dropCol prices "IBOV" with
  | .error e => .error e
  | .ok dropped =>
    match matvec dropped (weightsOf tickers) with
    | .error e => .error e
    | .ok pcol =>
      let prices2 := setCol prices "portfolio" pcol
      match normTable prices2 with
      | .error e => .error e
      | .ok normp =>
        .ok { prices := prices2, normPrices := normp,
              returnsTbl := mapCols pctChangeDrop prices2,
              rets := retsOf normp }

/-- `vols = returns.std() * np.sqrt(252)`, one entry per column of the
returns frame. -/
noncomputable def volsOf (r : MainResult) : List (String × Option ℝ) :=
  r.returnsTbl.cols.map (fun p => (p.1, colVol p.2))

/-- `get_metric_classification(metric, value)` from `app.py`: `None`
maps to `"N/A"`, a recognized metric is classified by its lambda in
the threshold dictionary, an unrecognized metric falls back to
`"N/A"`. -/
def get_metric_classification (metric : String) (value : Option ℚ) : String :=
  match value with
  | none => "N/A"
  | some x =>
    if metric = "PE" then
      if x < 10 then "bom" else if x ≤ 25 then "estavel" else "avaliar"
    else if metric = "PEG" then
      if x < 1 then "bom" else "avaliar"
    else if metric = "EV_EBITDA" then
      if x < 6 then "bom" else if x ≤ 12 then "estavel" else "avaliar"
    else if metric = "PB" then
      if x < 1 then "bom" else if x ≤ 3 then "estavel" else "avaliar"
    else if metric = "DIV_YIELD" then
      if x > 5 then "bom" else if x ≥ 2 then "estavel" else "avaliar"
    else if metric = "ROE" then
      if x > 20 then "bom" else if x ≥ 10 then "estavel" else "avaliar"
    else if metric = "NET_MARGIN" then
      if x > 15 then "bom" else if x ≥ 5 then "estavel" else "avaliar"
    else "N/A"

/-- `get_price_target(ticker)` from `app.py`, abstracted over the two
provider fields it reads (`regularMarketPrice`, `targetMeanPrice`):
when either is `None` it returns `(None, None, "sem dados")`,
otherwise the two prices with `"reversão"` when current < target and
`"acima"` otherwise. -/
def get_price_target (current_price target_price : Option ℚ) :
    Option ℚ × Option ℚ × String :=
  match current_price, target_price with
  | some c, some t =>
    if c < t then (some c, some t, "reversão") else (some c, some t, "acima")
  | _, _ => (none, none, "sem dados")

/-- The provider fields `fetch_fundamentals` reads from
`yf.Ticker(...).info` (`info.get(key, None)` for each key). -/
structure YFInfo where
  trailingPE : Option ℚ
  pegRatio : Option ℚ
  enterpriseToEbitda : Option ℚ
  priceToBook : Option ℚ
  profitMargins : Option ℚ
  dividendYield : Option ℚ
  returnOnEquity : Option ℚ
  regularMarketPrice : Option ℚ
deriving DecidableEq

/-- The snapshot dictionary `fetch_fundamentals` returns. -/
structure FundamentalSnapshot where
  PE : Option ℚ
  PEG : Option ℚ
  EV_EBITDA : Option ℚ
  PB : Option ℚ
  NET_MARGIN : Option ℚ
  DIV_YIELD : Option ℚ
  ROE : Option ℚ
  CURRENT_PRICE : Option ℚ
deriving DecidableEq

/-- The Python expression `v * 100 if v else None`: a missing value
stays `None`, and a value of exactly `0` is falsy in Python, so it
also maps to `None`; any other value is scaled by 100. -/
def truthyScale (v : Option ℚ) : Option ℚ :=
  match v with
  | some x => if x = 0 then none else some (x * 100)
  | none => none

/-- `fetch_fundamentals(ticker)` from `app.py`, abstracted over the
provider response.  The `try` body never raises (the multiplications
are guarded by truthiness), so the `except` branch is dead. -/
def fetch_fundamentals (info : YFInfo) : FundamentalSnapshot :=
  { PE := info.trailingPE
    PEG := info.pegRatio
    EV_EBITDA := info.enterpriseToEbitda
    PB := info.priceToBook
    NET_MARGIN := truthyScale info.profitMargins
    DIV_YIELD := truthyScale info.dividendYield
    ROE := truthyScale info.returnOnEquity
    CURRENT_PRICE := info.regularMarketPrice }

/-- Spec-side definition (sec. 8 of the spec): the arithmetic mean of a
row of cells, `mean(asset_1[t], ..., asset_N[t])`, lifted so a missing
asset value makes the mean missing. -/
def vmean (vs : List Val) (n : Nat) : Val := vdiv (vsum vs) (some (n : ℚ))

/-- Spec-side definition: the daily returns `price[t]/price[t-1] - 1`
for `t ≥ 1` of a fully observed column, as plain rationals. -/
def specDailyReturns (c : List ℚ) : List ℚ :=
  List.zipWith (fun cur prev => cur / prev - 1) c.tail c

/-- Spec-side definition: sample variance with the `N-1` denominator;
undefined (`none`) for fewer than two observations. -/
def specSampleVar (xs : List ℚ) : Option ℚ :=
  if xs.length < 2 then none
  else some (((xs.map (fun x => (x - xs.sum / (xs.length : ℚ)) ^ 2)).sum)
      / ((xs.length : ℚ) - 1))

/-- Spec-side definition: sample standard deviation (square root of the
sample variance). -/
noncomputable def specSampleStd (xs : List ℚ) : Option ℝ :=
  (specSampleVar xs).map Real.sqrt


/-! ### Concrete frames used to instantiate the general theorems -/

/-- Two assets plus benchmark, two rows. -/
def T1tbl : PriceTable :=
  ⟨[("AAA", [some 10, some 11]), ("BBB", [some 20, some 18]),
    ("IBOV", [some 1, some 2])]⟩

/-- `T1tbl` with the benchmark column dropped. -/
def D1tbl : PriceTable :=
  ⟨[("AAA", [some 10, some 11]), ("BBB", [some 20, some 18])]⟩

/-- The analytics output on `T1tbl`. -/
def R1res : MainResult :=
  ⟨⟨[("AAA", [some 10, some 11]), ("BBB", [some 20, some 18]),
     ("IBOV", [some 1, some 2]), ("portfolio", [some 15, some (29/2)])]⟩,
   ⟨[("AAA", [some 100, some 110]), ("BBB", [some 100, some 90]),
     ("IBOV", [some 100, some 200]), ("portfolio", [some 100, some (290/3)])]⟩,
   ⟨[("AAA", [some (1/10)]), ("BBB", [some (-(1/10))]),
     ("IBOV", [some 1]), ("portfolio", [some (-(1/30))])]⟩,
   [("AAA", some (1/10)), ("BBB", some (-(1/10))),
    ("IBOV", some 1), ("portfolio", some (-(1/30)))]⟩

/-- One asset with a single price row (plus benchmark). -/
def T3tbl : PriceTable := ⟨[("AAA", [some 10]), ("IBOV", [some 5])]⟩

/-- The analytics output on `T3tbl`: empty returns, zero cumulative
return, and (via `volsOf`) NaN volatility. -/
def R3res : MainResult :=
  ⟨⟨[("AAA", [some 10]), ("IBOV", [some 5]), ("portfolio", [some 10])]⟩,
   ⟨[("AAA", [some 100]), ("IBOV", [some 100]), ("portfolio", [some 100])]⟩,
   ⟨[("AAA", []), ("IBOV", []), ("portfolio", [])]⟩,
   [("AAA", some 0), ("IBOV", some 0), ("portfolio", some 0)]⟩

/-- One asset whose first price is zero (plus benchmark). -/
def T4tbl : PriceTable :=
  ⟨[("AAA", [some 0, some 1]), ("IBOV", [some 1, some 1])]⟩

/-- The analytics output on `T4tbl`: the zero baseline makes the
normalized column non-finite, with no error raised. -/
def R4res : MainResult :=
  ⟨⟨[("AAA", [some 0, some 1]), ("IBOV", [some 1, some 1]),
     ("portfolio", [some 0, some 1])]⟩,
   ⟨[("AAA", [none, none]), ("IBOV", [some 100, some 100]),
     ("portfolio", [none, none])]⟩,
   ⟨[("AAA", [none]), ("IBOV", [some 0]), ("portfolio", [none])]⟩,
   [("AAA", none), ("IBOV", some 0), ("portfolio", none)]⟩

/-- One asset, two fully observed nonzero prices (plus benchmark). -/
def T6tbl : PriceTable :=
  ⟨[("AAA", [some 1, some 2]), ("IBOV", [some 1, some 1])]⟩

/-- The analytics output on `T6tbl`. -/
def R6res : MainResult :=
  ⟨⟨[("AAA", [some 1, some 2]), ("IBOV", [some 1, some 1]),
     ("portfolio", [some 1, some 2])]⟩,
   ⟨[("AAA", [some 100, some 200]), ("IBOV", [some 100, some 100]),
     ("portfolio", [some 100, some 200])]⟩,
   ⟨[("AAA", [some 1]), ("IBOV", [some 0]), ("portfolio", [some 1])]⟩,
   [("AAA", some 1), ("IBOV", some 0), ("portfolio", some 1)]⟩

/-- One asset whose first price is missing (plus benchmark). -/
def T7tbl : PriceTable :=
  ⟨[("AAA", [none, some 1]), ("IBOV", [some 1, some 1])]⟩

/-- The analytics output on `T7tbl`: the missing baseline makes the
whole normalized column NaN, in particular its first entry. -/
def R7res : MainResult :=
  ⟨⟨[("AAA", [none, some 1]), ("IBOV", [some 1, some 1]),
     ("portfolio", [none, some 1])]⟩,
   ⟨[("AAA", [none, none]), ("IBOV", [some 100, some 100]),
     ("portfolio", [none, none])]⟩,
   ⟨[("AAA", [none]), ("IBOV", [some 0]), ("portfolio", [none])]⟩,
   [("AAA", none), ("IBOV", some 0), ("portfolio", none)]⟩

/-- One asset with a nonzero first price (plus benchmark). -/
def T7w : PriceTable :=
  ⟨[("AAA", [some 4, some 5]), ("IBOV", [some 2, some 2])]⟩

/-- The analytics output on `T7w`. -/
def R7w : MainResult :=
  ⟨⟨[("AAA", [some 4, some 5]), ("IBOV", [some 2, some 2]),
     ("portfolio", [some 4, some 5])]⟩,
   ⟨[("AAA", [some 100, some 125]), ("IBOV", [some 100, some 100]),
     ("portfolio", [some 100, some 125])]⟩,
   ⟨[("AAA", [some (1/4)]), ("IBOV", [some 0]), ("portfolio", [some (1/4)])]⟩,
   [("AAA", some (1/4)), ("IBOV", some 0), ("portfolio", some (1/4))]⟩

/-- One asset, used for the frame-effect witness. -/
def T9tbl : PriceTable :=
  ⟨[("AAA", [some 3, some 6]), ("IBOV", [some 1, some 3])]⟩

/-- The analytics output on `T9tbl`. -/
def R9res : MainResult :=
  ⟨⟨[("AAA", [some 3, some 6]), ("IBOV", [some 1, some 3]),
     ("portfolio", [some 3, some 6])]⟩,
   ⟨[("AAA", [some 100, some 200]), ("IBOV", [some 100, some 300]),
     ("portfolio", [some 100, some 200])]⟩,
   ⟨[("AAA", [some 1]), ("IBOV", [some 2]), ("portfolio", [some 1])]⟩,
   [("AAA", some 1), ("IBOV", some 2), ("portfolio", some 1)]⟩

/-- One asset and no benchmark column: what `build_sidebar` produces
when the benchmark download fails with only a soft warning. -/
def T5tbl : PriceTable := ⟨[("AAA", [some 10, some 11])]⟩

/-! ### Inversion lemmas for the `Except`-valued steps -/

theorem dropCol_ok {tbl : PriceTable} {name : String} {d : PriceTable}
    (h : dropCol tbl name = .ok d) :
    d.cols = tbl.cols.filter (fun p => !(p.1 == name)) := by
  unfold dropCol at h
  split at h
  · cases h; rfl
  · cases h

theorem matvec_ok {tbl : PriceTable} {ws : List ℚ} {c : Col}
    (h : matvec tbl ws = .ok c) :
    tbl.cols.length = ws.length ∧
      c = (List.range (nrows tbl)).map (fun t => dotRow (rowAt tbl t) ws) := by
  unfold matvec at h
  split at h
  case isTrue hc => cases h; exact ⟨hc, rfl⟩
  case isFalse => cases h

theorem normTable_ok {tbl ntbl : PriceTable} (h : normTable tbl = .ok ntbl) :
    ntbl = mapCols normCol tbl := by
  unfold normTable at h
  split at h
  · cases h
  · cases h; rfl

theorem build_main_ok {tickers : List String} {prices : PriceTable}
    {res : MainResult} (h : build_main tickers prices = .ok res) :
    ∃ dropped pcol,
      dropCol prices "IBOV" = .ok dropped ∧
      matvec dropped (weightsOf tickers) = .ok pcol ∧
      res.prices = setCol prices "portfolio" pcol ∧
      normTable res.prices = .ok res.normPrices ∧
      res.returnsTbl = mapCols pctChangeDrop res.prices ∧
      res.rets = retsOf res.normPrices := by
  unfold build_main at h
  split at h
  · cases h
  next dropped hd =>
    split at h
    · cases h
    next pcol hm =>
      simp only [] at h
      split at h
      · cases h
      next normp hn =>
        cases h
        exact ⟨dropped, pcol, hd, hm, rfl, hn, rfl, rfl⟩

/-! ### Lookup and column-map lemmas -/

theorem find?_fst_map {α β : Type} (f : α → β) (s : String) :
    ∀ l : List (String × α),
      (l.map (fun p => (p.1, f p.2))).find? (fun p => p.1 == s)
        = (l.find? (fun p => p.1 == s)).map (fun p => (p.1, f p.2))
  | [] => rfl
  | p :: t => by
    cases hp : (p.1 == s) with
    | true => simp [List.find?_cons, hp]
    | false => simp [List.find?_cons, hp, find?_fst_map f s t]

theorem lookupPair_map {α β : Type} (f : α → β) (s : String)
    (l : List (String × α)) :
    lookupPair (l.map (fun p => (p.1, f p.2))) s = (lookupPair l s).map f := by
  unfold lookupPair
  rw [find?_fst_map]
  cases l.find? (fun p => p.1 == s) <;> rfl

theorem getCol_mapCols (f : Col → Col) (tbl : PriceTable) (s : String) :
    getCol (mapCols f tbl) s = (getCol tbl s).map f :=
  lookupPair_map f s tbl.cols

theorem lookupPair_volsOf (r : MainResult) (s : String) :
    lookupPair (volsOf r) s = (getCol r.returnsTbl s).map colVol :=
  lookupPair_map colVol s r.returnsTbl.cols

theorem find?_ext {α : Type} {p q : α → Bool} (h : ∀ a, p a = q a) :
    ∀ l : List α, l.find? p = l.find? q
  | [] => rfl
  | a :: t => by
    rw [List.find?_cons, List.find?_cons, h a, find?_ext h t]

theorem find?_overwrite {α : Type} (name : String) (c : α) :
    ∀ l : List (String × α), l.any (fun p => p.1 == name) = true →
      (l.map (fun p => if p.1 == name then (name, c) else p)).find?
          (fun p => p.1 == name) = some (name, c)
  | [], h => by cases h
  | p :: t, h => by
    by_cases hp : p.1 = name
    · rw [List.map_cons, List.find?_cons_of_pos]
      · simp [hp]
      · simp [hp]
    · have ht : t.any (fun p => p.1 == name) = true := by
        simpa [List.any_cons, hp] using h
      rw [List.map_cons, List.find?_cons_of_neg]
      · exact find?_overwrite name c t ht
      · simp [hp]

theorem find?_overwrite_ne {α : Type} (name s : String) (c : α) (hs : s ≠ name)
    (l : List (String × α)) :
    (l.map (fun p => if p.1 == name then (name, c) else p)).find?
        (fun p => p.1 == s)
      = l.find? (fun p => p.1 == s) := by
  have hns : ¬ (name = s) := fun h => hs h.symm
  rw [List.find?_map]
  have hext : ∀ q : String × α,
      ((fun p => p.1 == s) ∘ (fun p => if p.1 == name then (name, c) else p)) q
        = (q.1 == s) := by
    intro q
    by_cases hq : q.1 = name
    · simp [hq, hns]
    · simp [hq]
  rw [find?_ext hext]
  cases hf : l.find? (fun p => p.1 == s) with
  | none => rfl
  | some r =>
    have hr : ((fun p : String × α => p.1 == s) r) = true :=
      @List.find?_some (String × α) (fun p => p.1 == s) r l hf
    have hrn : ¬ (r.1 = name) := by
      have hr1 : r.1 = s := by simpa using hr
      rw [hr1]; exact hs
    simp [hrn]

theorem find?_append_single_ne {α : Type} (name s : String) (c : α)
    (hs : s ≠ name) (l : List (String × α)) :
    (l ++ [(name, c)]).find? (fun p => p.1 == s) = l.find? (fun p => p.1 == s) := by
  have hns : ¬ (name = s) := fun h => hs h.symm
  simp [List.find?_append, hns]

theorem find?_append_self {α : Type} (name : String) (c : α)
    (l : List (String × α)) (h : l.find? (fun p => p.1 == name) = none) :
    (l ++ [(name, c)]).find? (fun p => p.1 == name) = some (name, c) := by
  simp [List.find?_append, h]

theorem getCol_setCol_self (tbl : PriceTable) (name : String) (c : Col) :
    getCol (setCol tbl name c) name = some c := by
  unfold getCol setCol lookupPair
  split
  next hany => rw [find?_overwrite name c tbl.cols hany]; rfl
  next hany =>
    have hf : tbl.cols.any (fun p => p.1 == name) = false :=
      Bool.eq_false_iff.mpr hany
    have hn : tbl.cols.find? (fun p => p.1 == name) = none :=
      List.find?_eq_none.mpr (List.any_eq_false.mp hf)
    rw [find?_append_self name c tbl.cols hn]; rfl

theorem getCol_setCol_ne (tbl : PriceTable) (name s : String) (c : Col)
    (hs : s ≠ name) : getCol (setCol tbl name c) s = getCol tbl s := by
  unfold getCol setCol lookupPair
  split
  · rw [find?_overwrite_ne name s c hs]
  · rw [find?_append_single_ne name s c hs]

theorem mem_setCol {tbl : PriceTable} {name : String} {c : Col}
    {p : String × Col} (h : p ∈ (setCol tbl name c).cols) :
    p ∈ tbl.cols ∨ p.2 = c := by
  unfold setCol at h
  split at h
  · rcases List.mem_map.mp h with ⟨q, hq, hqe⟩
    by_cases hqn : (q.1 == name) = true
    · right; rw [← hqe]; simp [hqn]
    · left
      have : (if (q.1 == name) = true then (name, c) else q) = q := by
        simp [hqn]
      rw [← hqe, this]; exact hq
  · rcases List.mem_append.mp h with h | h
    · exact Or.inl h
    · right
      have : p = (name, c) := by simpa using h
      rw [this]

/-! ### Arithmetic lemmas on lifted cells -/

theorem zipWith_const_right {α β γ : Type} (f : α → β → γ) (w : β) :
    ∀ vs : List α,
      List.zipWith f vs (List.replicate vs.length w) = vs.map (fun v => f v w)
  | [] => rfl
  | v :: t => by
    simp only [List.length_cons, List.replicate_succ, List.zipWith_cons_cons,
      List.map_cons, zipWith_const_right f w t]

theorem vmul_vadd_distrib (v x : Val) (w : ℚ) :
    vadd (vmul v (some w)) (vmul x (some w)) = vmul (vadd v x) (some w) := by
  cases v <;> cases x <;> simp [vadd, vmul, add_mul]

theorem vsum_map_mul (w : ℚ) :
    ∀ vs : List Val,
      vsum (vs.map (fun v => vmul v (some w))) = vmul (vsum vs) (some w)
  | [] => by simp [vsum, vmul, List.foldr]
  | v :: t => by
    show vadd (vmul v (some w)) (vsum (t.map (fun v => vmul v (some w)))) = _
    rw [vsum_map_mul w t, vmul_vadd_distrib]
    rfl

theorem vmul_inv_eq_vdiv (x : Val) (n : ℚ) (hn : n ≠ 0) :
    vmul x (some (1 / n)) = vdiv x (some n) := by
  cases x with
  | none => rfl
  | some a => simp [vmul, vdiv, hn, div_eq_mul_inv]

theorem dotRow_replicate (vs : List Val) (n : Nat) (hlen : vs.length = n)
    (hn : 1 ≤ n) :
    dotRow vs (List.replicate n ((1 : ℚ) / (n : ℚ))) = vmean vs n := by
  subst hlen
  unfold dotRow vmean
  rw [zipWith_const_right, vsum_map_mul]
  exact vmul_inv_eq_vdiv _ _ (Nat.cast_ne_zero.mpr (by omega))

theorem getD_range_map {α : Type} (f : Nat → α) (d : α) {n t : Nat}
    (ht : t < n) : ((List.range n).map f).getD t d = f t := by
  rw [List.getD_eq_getElem?_getD, List.getElem?_map, List.getElem?_range ht]
  rfl

/-! ### Returns and variance lemmas -/

theorem pctChangeDrop_short (c : Col) (h : c.length ≤ 1) : pctChangeDrop c = [] := by
  cases c with
  | nil => rfl
  | cons v t =>
    cases t with
    | nil => rfl
    | cons w u => simp at h

theorem zipWith_ret_map_some :
    ∀ (l₁ l₂ : List ℚ), (∀ x ∈ l₂, x ≠ 0) →
      List.zipWith (fun cur prev => vsub (vdiv cur prev) (some 1))
          (l₁.map some) (l₂.map some)
        = (List.zipWith (fun cur prev => cur / prev - 1) l₁ l₂).map some
  | [], l₂, _ => by simp
  | a :: t₁, [], _ => by simp
  | a :: t₁, b :: t₂, h => by
    have hb : b ≠ 0 := h b (by simp)
    have ht : ∀ x ∈ t₂, x ≠ 0 := fun x hx => h x (by simp [hx])
    simp only [List.map_cons, List.zipWith_cons_cons]
    rw [zipWith_ret_map_some t₁ t₂ ht]
    simp [vdiv, vsub, hb]

theorem pctChangeDrop_all_some (c : List ℚ) (h : ∀ x ∈ c, x ≠ 0) :
    pctChangeDrop (c.map some) = (specDailyReturns c).map some := by
  unfold pctChangeDrop specDailyReturns
  have htail : (c.map some).tail = c.tail.map some := by cases c <;> rfl
  rw [htail]
  exact zipWith_ret_map_some c.tail c h

theorem colVarQ_map_some (xs : List ℚ) : colVarQ (xs.map some) = specSampleVar xs := by
  unfold colVarQ specSampleVar
  have hfm : (xs.map some).filterMap id = xs := by
    induction xs with
    | nil => rfl
    | cons a t ih => simp [List.filterMap_cons, ih]
  rw [hfm]

/-! ### Evaluation of the analytics pass on the concrete frames -/

set_option maxHeartbeats 2000000 in
theorem T1_run : build_main ["AAA", "BBB"] T1tbl = .ok R1res := by
  norm_num +decide [build_main, dropCol, matvec, setCol, normTable, mapCols,
    pctChangeDrop, rowAt, dotRow, vsum, vadd, vmul, vsub, vdiv, normCol,
    retsOf, weightsOf, nrows, T1tbl, R1res, List.filter_cons, List.range_succ,
    List.getD, List.getLastD, List.replicate_succ, List.replicate_zero]

set_option maxHeartbeats 2000000 in
theorem T3_run : build_main ["AAA"] T3tbl = .ok R3res := by
  norm_num +decide [build_main, dropCol, matvec, setCol, normTable, mapCols,
    pctChangeDrop, rowAt, dotRow, vsum, vadd, vmul, vsub, vdiv, normCol,
    retsOf, weightsOf, nrows, T3tbl, R3res, List.filter_cons, List.range_succ,
    List.getD, List.getLastD, List.replicate_succ, List.replicate_zero]

set_option maxHeartbeats 2000000 in
theorem T4_run : build_main ["AAA"] T4tbl = .ok R4res := by
  norm_num +decide [build_main, dropCol, matvec, setCol, normTable, mapCols,
    pctChangeDrop, rowAt, dotRow, vsum, vadd, vmul, vsub, vdiv, normCol,
    retsOf, weightsOf, nrows, T4tbl, R4res, List.filter_cons, List.range_succ,
    List.getD, List.getLastD, List.replicate_succ, List.replicate_zero]

set_option maxHeartbeats 2000000 in
theorem T6_run : build_main ["AAA"] T6tbl = .ok R6res := by
  norm_num +decide [build_main, dropCol, matvec, setCol, normTable, mapCols,
    pctChangeDrop, rowAt, dotRow, vsum, vadd, vmul, vsub, vdiv, normCol,
    retsOf, weightsOf, nrows, T6tbl, R6res, List.filter_cons, List.range_succ,
    List.getD, List.getLastD, List.replicate_succ, List.replicate_zero]

set_option maxHeartbeats 2000000 in
theorem T7_run : build_main ["AAA"] T7tbl = .ok R7res := by
  norm_num +decide [build_main, dropCol, matvec, setCol, normTable, mapCols,
    pctChangeDrop, rowAt, dotRow, vsum, vadd, vmul, vsub, vdiv, normCol,
    retsOf, weightsOf, nrows, T7tbl, R7res, List.filter_cons, List.range_succ,
    List.getD, List.getLastD, List.replicate_succ, List.replicate_zero]

set_option maxHeartbeats 2000000 in
theorem T7w_run : build_main ["AAA"] T7w = .ok R7w := by
  norm_num +decide [build_main, dropCol, matvec, setCol, normTable, mapCols,
    pctChangeDrop, rowAt, dotRow, vsum, vadd, vmul, vsub, vdiv, normCol,
    retsOf, weightsOf, nrows, T7w, R7w, List.filter_cons, List.range_succ,
    List.getD, List.getLastD, List.replicate_succ, List.replicate_zero]

set_option maxHeartbeats 2000000 in
theorem T9_run : build_main ["AAA"] T9tbl = .ok R9res := by
  norm_num +decide [build_main, dropCol, matvec, setCol, normTable, mapCols,
    pctChangeDrop, rowAt, dotRow, vsum, vadd, vmul, vsub, vdiv, normCol,
    retsOf, weightsOf, nrows, T9tbl, R9res, List.filter_cons, List.range_succ,
    List.getD, List.getLastD, List.replicate_succ, List.replicate_zero]

/-! ### Claim theorems -/

/-- C2: the metric classification function equals the table-driven
reference of the spec for every input: a null value or an unrecognized
metric name maps to the unknown bucket `"N/A"`; PE is good below 10,
stable on [10, 25], review above 25; PEG is good below 1, review at or
above 1; EV_EBITDA is good below 6, stable on [6, 12], review above
12; PB is good below 1, stable on [1, 3], review above 3; and with
inverted direction, DIV_YIELD is good above 5, stable on [2, 5],
review below 2; ROE is good above 20, stable on [10, 20], review below
10; NET_MARGIN is good above 15, stable on [5, 15], review below 5. -/
theorem c2_classification_matches_table :
    (∀ m : String, get_metric_classification m none = "N/A")
    ∧ (∀ m : String,
        m ∉ (["PE", "PEG", "EV_EBITDA", "PB", "DIV_YIELD", "ROE",
          "NET_MARGIN"] : List String) →
        ∀ x : ℚ, get_metric_classification m (some x) = "N/A")
    ∧ (∀ x : ℚ, get_metric_classification "PE" (some x)
        = if x < 10 then "bom" else
          if 10 ≤ x ∧ x ≤ 25 then "estavel" else "avaliar")
    ∧ (∀ x : ℚ, get_metric_classification "PEG" (some x)
        = if x < 1 then "bom" else "avaliar")
    ∧ (∀ x : ℚ, get_metric_classification "EV_EBITDA" (some x)
        = if x < 6 then "bom" else
          if 6 ≤ x ∧ x ≤ 12 then "estavel" else "avaliar")
    ∧ (∀ x : ℚ, get_metric_classification "PB" (some x)
        = if x < 1 then "bom" else
          if 1 ≤ x ∧ x ≤ 3 then "estavel" else "avaliar")
    ∧ (∀ x : ℚ, get_metric_classification "DIV_YIELD" (some x)
        = if 5 < x then "bom" else
          if 2 ≤ x ∧ x ≤ 5 then "estavel" else "avaliar")
    ∧ (∀ x : ℚ, get_metric_classification "ROE" (some x)
        = if 20 < x then "bom" else
          if 10 ≤ x ∧ x ≤ 20 then "estavel" else "avaliar")
    ∧ (∀ x : ℚ, get_metric_classification "NET_MARGIN" (some x)
        = if 15 < x then "bom" else
          if 5 ≤ x ∧ x ≤ 15 then "estavel" else "avaliar") := by
  refine ⟨fun m => rfl, ?_, ?_, ?_, ?_, ?_, ?_, ?_, ?_⟩
  · intro m hm x
    simp only [List.mem_cons, List.mem_singleton, not_or] at hm
    obtain ⟨h1, h2, h3, h4, h5, h6, h7⟩ := hm
    simp [get_metric_classification, h1, h2, h3, h4, h5, h6, h7]
  · intro x
    have e : get_metric_classification "PE" (some x)
        = (if x < 10 then "bom" else if x ≤ 25 then "estavel" else "avaliar") := by
      simp [get_metric_classification]
    rw [e]
    split_ifs <;> try rfl
    all_goals (exfalso; simp_all; try linarith)
  · intro x
    have e : get_metric_classification "PEG" (some x)
        = (if x < 1 then "bom" else "avaliar") := by
      simp [get_metric_classification]
    rw [e]
  · intro x
    have e : get_metric_classification "EV_EBITDA" (some x)
        = (if x < 6 then "bom" else if x ≤ 12 then "estavel" else "avaliar") := by
      simp [get_metric_classification]
    rw [e]
    split_ifs <;> try rfl
    all_goals (exfalso; simp_all; try linarith)
  · intro x
    have e : get_metric_classification "PB" (some x)
        = (if x < 1 then "bom" else if x ≤ 3 then "estavel" else "avaliar") := by
      simp [get_metric_classification]
    rw [e]
    split_ifs <;> try rfl
    all_goals (exfalso; simp_all; try linarith)
  · intro x
    have e : get_metric_classification "DIV_YIELD" (some x)
        = (if x > 5 then "bom" else if x ≥ 2 then "estavel" else "avaliar") := by
      simp [get_metric_classification]
    rw [e]
    split_ifs <;> try rfl
    all_goals (exfalso; simp_all; try linarith)
  · intro x
    have e : get_metric_classification "ROE" (some x)
        = (if x > 20 then "bom" else if x ≥ 10 then "estavel" else "avaliar") := by
      simp [get_metric_classification]
    rw [e]
    split_ifs <;> try rfl
    all_goals (exfalso; simp_all; try linarith)
  · intro x
    have e : get_metric_classification "NET_MARGIN" (some x)
        = (if x > 15 then "bom" else if x ≥ 5 then "estavel" else "avaliar") := by
      simp [get_metric_classification]
    rw [e]
    split_ifs <;> try rfl
    all_goals (exfalso; simp_all; try linarith)

/-- Witness for C2 at a concrete unrecognized metric name. -/
theorem c2_classification_matches_table_witness :
    ("EBIT" ∉ (["PE", "PEG", "EV_EBITDA", "PB", "DIV_YIELD", "ROE",
        "NET_MARGIN"] : List String))
    ∧ get_metric_classification "EBIT" (some 7) = "N/A" :=
  ⟨by decide, c2_classification_matches_table.2.1 "EBIT" (by decide) 7⟩

/-- C8: the price-target classification returns `"reversão"`
(potential upside) exactly when current < target, `"acima"`
(above target) otherwise, and `"sem dados"` (no data) whenever either
of the two provider values is unavailable. -/
theorem c8_price_target_classification :
    (∀ c t : ℚ, (get_price_target (some c) (some t)).2.2
        = if c < t then "reversão" else "acima")
    ∧ (∀ t : Option ℚ, (get_price_target none t).2.2 = "sem dados")
    ∧ (∀ c : Option ℚ, (get_price_target c none).2.2 = "sem dados") := by
  refine ⟨fun c t => ?_, fun t => ?_, fun c => ?_⟩
  · by_cases h : c < t <;> simp [get_price_target, h]
  · cases t <;> rfl
  · cases c <;> rfl

/-- C10: a provider value of exactly 0 for `profitMargins`,
`dividendYield` or `returnOnEquity` is falsy in Python, so
`fetch_fundamentals` maps it to null rather than 0, and the metric
therefore classifies as the unknown bucket `"N/A"` instead of going
through the numeric thresholds. -/
theorem c10_zero_provider_value_maps_to_null (info : YFInfo) :
    (info.profitMargins = some 0 →
      (fetch_fundamentals info).NET_MARGIN = none ∧
      get_metric_classification "NET_MARGIN"
        (fetch_fundamentals info).NET_MARGIN = "N/A")
    ∧ (info.dividendYield = some 0 →
      (fetch_fundamentals info).DIV_YIELD = none ∧
      get_metric_classification "DIV_YIELD"
        (fetch_fundamentals info).DIV_YIELD = "N/A")
    ∧ (info.returnOnEquity = some 0 →
      (fetch_fundamentals info).ROE = none ∧
      get_metric_classification "ROE"
        (fetch_fundamentals info).ROE = "N/A") := by
  refine ⟨fun h => ?_, fun h => ?_, fun h => ?_⟩ <;>
    simp [fetch_fundamentals, truthyScale, h, get_metric_classification]

/-- Witness for C10 at a concrete provider response with a zero
`profitMargins` field. -/
theorem c10_zero_provider_value_maps_to_null_witness :
    (YFInfo.mk none none none none (some 0) (some 0) (some 0) none).profitMargins
      = some 0
    ∧ ((fetch_fundamentals
        (YFInfo.mk none none none none (some 0) (some 0) (some 0) none)).NET_MARGIN
        = none ∧
      get_metric_classification "NET_MARGIN"
        (fetch_fundamentals
          (YFInfo.mk none none none none (some 0) (some 0) (some 0) none)).NET_MARGIN
        = "N/A") :=
  ⟨rfl, (c10_zero_provider_value_maps_to_null
    (YFInfo.mk none none none none (some 0) (some 0) (some 0) none)).1 rfl⟩

/-- C5 (documents the code bug): on a price frame without the "IBOV"
benchmark column — exactly what `build_sidebar` hands over after the
benchmark download fails with only a soft warning — the analytics pass
does not proceed in degraded form: `prices.drop("IBOV", axis=1)`
raises `KeyError`, so the claimed graceful degradation never happens. -/
theorem c5_missing_benchmark_raises_keyerror :
    build_main ["AAA"] T5tbl = .error "KeyError: IBOV not found in axis" := by
  norm_num +decide [build_main, dropCol, T5tbl]

/-- C1: whenever the analytics pass succeeds on a frame with N ≥ 1
non-benchmark asset columns, every entry of the derived portfolio
column equals the arithmetic mean of the corresponding row of the
asset columns (the benchmark excluded) — i.e. the row-wise dot product
of the asset prices with the constant weight vector 1/N. -/
theorem c1_portfolio_is_row_mean (tickers : List String)
    (prices dropped : PriceTable) (res : MainResult) (t : Nat)
    (hrun : build_main tickers prices = .ok res)
    (hdrop : dropCol prices "IBOV" = .ok dropped)
    (hN : 1 ≤ dropped.cols.length)
    (ht : t < nrows dropped) :
    (getCol res.prices "portfolio").map (fun c => c.getD t none)
      = some (vmean (rowAt dropped t) dropped.cols.length) := by
  obtain ⟨dropped2, pcol, hd2, hm, hp, hn, hr, hrets⟩ := build_main_ok hrun
  rw [hdrop] at hd2
  injection hd2 with hd3
  subst hd3
  obtain ⟨hlen, hpcol⟩ := matvec_ok hm
  have hlenw : dropped.cols.length = tickers.length := by
    simpa [weightsOf] using hlen
  rw [hp, getCol_setCol_self]
  simp only [Option.map_some']
  congr 1
  rw [hpcol, getD_range_map _ _ ht]
  have hrow : (rowAt dropped t).length = tickers.length := by
    simp [rowAt, hlenw]
  have hN' : 1 ≤ tickers.length := by omega
  unfold weightsOf
  rw [dotRow_replicate (rowAt dropped t) tickers.length hrow hN']
  rw [hlenw]

/-- Witness for C1 on the concrete two-asset frame. -/
theorem c1_portfolio_is_row_mean_witness :
    build_main ["AAA", "BBB"] T1tbl = .ok R1res
    ∧ dropCol T1tbl "IBOV" = .ok D1tbl
    ∧ 1 ≤ D1tbl.cols.length ∧ 0 < nrows D1tbl
    ∧ (getCol R1res.prices "portfolio").map (fun c => c.getD 0 none)
        = some (vmean (rowAt D1tbl 0) D1tbl.cols.length) :=
  ⟨T1_run, by norm_num +decide [dropCol, T1tbl, D1tbl, List.filter_cons],
    by decide, by decide,
    c1_portfolio_is_row_mean ["AAA", "BBB"] T1tbl D1tbl R1res 0 T1_run
      (by norm_num +decide [dropCol, T1tbl, D1tbl, List.filter_cons])
      (by decide) (by decide)⟩

/-- C9: the analytics pass mutates the caller frame only by adding the
"portfolio" column: on success the portfolio column (absent before) is
present in the resulting frame, and every other column is exactly the
caller column, unmodified by the normalization, returns, volatility
and cumulative-return computations (which build fresh objects). -/
theorem c9_frame_effect (tickers : List String) (prices : PriceTable)
    (res : MainResult)
    (hnew : getCol prices "portfolio" = none)
    (hrun : build_main tickers prices = .ok res) :
    (∀ s : String, s ≠ "portfolio" → getCol res.prices s = getCol prices s)
    ∧ (getCol res.prices "portfolio").isSome = true := by
  obtain ⟨dropped, pcol, hd, hm, hp, hn, hr, hrets⟩ := build_main_ok hrun
  refine ⟨fun s hs => ?_, ?_⟩
  · rw [hp, getCol_setCol_ne prices "portfolio" s pcol hs]
  · rw [hp, getCol_setCol_self]
    rfl

/-- Witness for C9 on a concrete frame. -/
theorem c9_frame_effect_witness :
    getCol T9tbl "portfolio" = none
    ∧ build_main ["AAA"] T9tbl = .ok R9res
    ∧ ((∀ s : String, s ≠ "portfolio" →
          getCol R9res.prices s = getCol T9tbl s)
        ∧ (getCol R9res.prices "portfolio").isSome = true) :=
  ⟨by decide, T9_run,
    c9_frame_effect ["AAA"] T9tbl R9res (by decide) T9_run⟩

/-- C6: for every fully observed column of nonzero prices with at
least two observations, the annualized volatility computed by the
analytics pass equals the sample standard deviation (`N-1`
denominator) of the daily returns `price[t]/price[t-1] - 1` for t ≥ 1
(first row dropped), multiplied by `sqrt 252`. -/
theorem c6_volatility (tickers : List String) (prices : PriceTable)
    (res : MainResult) (s : String) (c : List ℚ)
    (hrun : build_main tickers prices = .ok res)
    (hcol : getCol res.prices s = some (c.map some))
    (hlen : 2 ≤ c.length) (hnz : ∀ x ∈ c, x ≠ 0) :
    lookupPair (volsOf res) s
      = some ((specSampleStd (specDailyReturns c)).map
          (fun v => v * Real.sqrt 252)) := by
  obtain ⟨dropped, pcol, hd, hm, hp, hn, hr, hrets⟩ := build_main_ok hrun
  rw [lookupPair_volsOf, hr, getCol_mapCols, hcol]
  simp only [Option.map_some']
  congr 1
  rw [pctChangeDrop_all_some c hnz]
  unfold colVol colStd specSampleStd
  rw [colVarQ_map_some]

/-- Witness for C6 on the concrete two-row frame. -/
theorem c6_volatility_witness :
    build_main ["AAA"] T6tbl = .ok R6res
    ∧ getCol R6res.prices "AAA" = some (([1, 2] : List ℚ).map some)
    ∧ 2 ≤ ([1, 2] : List ℚ).length ∧ (∀ x ∈ ([1, 2] : List ℚ), x ≠ 0)
    ∧ lookupPair (volsOf R6res) "AAA"
        = some ((specSampleStd (specDailyReturns [1, 2])).map
            (fun v => v * Real.sqrt 252)) :=
  ⟨T6_run, by decide, by decide, by decide,
    c6_volatility ["AAA"] T6tbl R6res "AAA" [1, 2] T6_run (by decide)
      (by decide) (by decide)⟩

theorem nrows_eq_zero_of_cols_nil {tbl : PriceTable} (h : tbl.cols = []) :
    nrows tbl = 0 := by
  unfold nrows
  rw [h]

theorem nrows_eq_len_of_cols_cons {tbl : PriceTable} {p : String × Col}
    {t : List (String × Col)} (h : tbl.cols = p :: t) :
    nrows tbl = p.2.length := by
  unfold nrows
  rw [h]

theorem colVol_nil : colVol [] = none := rfl

/-- C3 (amended): a date range yielding fewer than two price rows does
not make the analytics pass fail with an InsufficientDataError — the
code has no such error path.  On a well-formed frame with at most one
row, the pass completes and silently produces `NaN`: every annualized
volatility entry is `none`, propagated from the empty returns
series. -/
theorem c3_single_row_nan_volatility (tickers : List String)
    (prices : PriceTable) (res : MainResult)
    (hw : WF prices) (hrows : nrows prices ≤ 1)
    (hrun : build_main tickers prices = .ok res) :
    ∀ p ∈ volsOf res, p.2 = none := by
  obtain ⟨dropped, pcol, hd, hm, hp, hn, hr, hrets⟩ := build_main_ok hrun
  intro p hpmem
  unfold volsOf at hpmem
  rcases List.mem_map.mp hpmem with ⟨q, hq, hqe⟩
  rw [hr] at hq
  simp only [mapCols] at hq
  rcases List.mem_map.mp hq with ⟨q0, hq0, hq0e⟩
  rw [hp] at hq0
  have hq0len : q0.2.length ≤ 1 := by
    rcases mem_setCol hq0 with hmem | hpc
    · have := hw q0 hmem
      omega
    · obtain ⟨hlen, hpcol⟩ := matvec_ok hm
      have hplen : pcol.length = nrows dropped := by
        rw [hpcol]; simp
      have hnd : nrows dropped ≤ 1 := by
        have hdc := dropCol_ok hd
        cases hcc : dropped.cols with
        | nil => rw [nrows_eq_zero_of_cols_nil hcc]; omega
        | cons p0 t0 =>
          have hp0 : p0 ∈ prices.cols := by
            have hmm : p0 ∈ dropped.cols := by
              rw [hcc]; exact List.mem_cons_self p0 t0
            rw [hdc] at hmm
            exact List.mem_of_mem_filter hmm
          have hl := hw p0 hp0
          rw [nrows_eq_len_of_cols_cons hcc]
          omega
      rw [hpc, hplen]
      exact hnd
  have hempty : pctChangeDrop q0.2 = [] := pctChangeDrop_short q0.2 hq0len
  subst hqe
  subst hq0e
  show colVol (pctChangeDrop q0.2) = none
  rw [hempty]
  exact colVol_nil

/-- Counterexample for C3: on a frame whose queried range yields
exactly one price row, the analytics pass completes without raising
any InsufficientDataError; the volatility entry is `NaN` (`none`),
silently propagated, rather than an error. -/
theorem c3_counterexample :
    nrows T3tbl = 1 ∧ build_main ["AAA"] T3tbl = .ok R3res
      ∧ lookupPair (volsOf R3res) "AAA" = some none := by
  refine ⟨rfl, T3_run, ?_⟩
  rw [lookupPair_volsOf]
  have hg : getCol R3res.returnsTbl "AAA" = some [] := by decide
  rw [hg]
  rfl

/-- Witness for C3 applying the amended theorem to the one-row frame. -/
theorem c3_single_row_nan_volatility_witness :
    WF T3tbl ∧ nrows T3tbl ≤ 1 ∧ build_main ["AAA"] T3tbl = .ok R3res
      ∧ ∀ p ∈ volsOf R3res, p.2 = none :=
  ⟨by decide, by decide, T3_run,
    c3_single_row_nan_volatility ["AAA"] T3tbl R3res (by decide) (by decide)
      T3_run⟩

/-- C4 (amended): for every column of the successfully processed
frame, the normalized entry at row `t` equals `100 * price[t] /
price[0]` whenever the first price is a nonzero finite value and the
row entry is finite; when the first price is missing or zero, no
DataError is raised — the pass still succeeds (see the
counterexample) and every normalized entry of that column is
non-finite (`none`), silently propagated. -/
theorem c4_normalization (tickers : List String) (prices : PriceTable)
    (res : MainResult) (s : String) (c : Col)
    (hrun : build_main tickers prices = .ok res)
    (hcol : getCol res.prices s = some c) :
    (∀ b : ℚ, c.headD none = some b → b ≠ 0 →
      ∀ t : Nat, t < c.length → ∀ a : ℚ, c.getD t none = some a →
        (getCol res.normPrices s).map (fun nc => nc.getD t none)
          = some (some (100 * a / b)))
    ∧ ((c.headD none = none ∨ c.headD none = some 0) →
      ∀ nc : Col, getCol res.normPrices s = some nc →
        ∀ v ∈ nc, v = none) := by
  obtain ⟨dropped, pcol, hd, hm, hp, hn, hr, hrets⟩ := build_main_ok hrun
  have hnp : getCol res.normPrices s = some (normCol c) := by
    rw [normTable_ok hn, getCol_mapCols, hcol]
    rfl
  constructor
  · intro b hb hbne t ht a ha
    rw [hnp]
    simp only [Option.map_some']
    congr 1
    have hct : getElem? c t = some (some a) := by
      rw [List.getD_eq_getElem?_getD, List.getElem?_eq_getElem ht] at ha
      rw [List.getElem?_eq_getElem ht]
      simpa using ha
    unfold normCol
    rw [List.getD_eq_getElem?_getD, List.getElem?_map, hct]
    have hb2 : (List.head? c).getD none = some b := by
      rw [← List.headD_eq_head?_getD]
      exact hb
    simp [vmul, vdiv, hb2, hbne]
  · intro hzero nc hnc v hv
    rw [hnp] at hnc
    injection hnc with hnc2
    subst hnc2
    rcases List.mem_map.mp hv with ⟨x, hx, hxe⟩
    rcases hzero with h0 | h0 <;> rw [h0] at hxe <;> cases x <;>
      simp [vmul, vdiv] at hxe <;> exact hxe.symm

/-- Counterexample for C4: with a zero first price the code does not
fail with a DataError — the analytics pass succeeds and the normalized
column silently becomes non-finite instead. -/
theorem c4_counterexample :
    (getCol T4tbl "AAA").map (fun c => c.headD none) = some (some 0)
    ∧ build_main ["AAA"] T4tbl = .ok R4res
    ∧ getCol R4res.normPrices "AAA" = some [none, none] :=
  ⟨by decide, T4_run, by decide⟩

/-- Witness for C4 applying the amended theorem on the zero-baseline
frame. -/
theorem c4_normalization_witness :
    build_main ["AAA"] T4tbl = .ok R4res
    ∧ getCol R4res.prices "AAA" = some [some 0, some 1]
    ∧ (∀ v ∈ ([none, none] : Col), v = none) :=
  ⟨T4_run, by decide,
    (c4_normalization ["AAA"] T4tbl R4res "AAA" [some 0, some 1] T4_run
        (by decide)).2
      (Or.inr rfl) [none, none] (by decide)⟩

/-- C7 (amended): the first normalized entry of a column equals
exactly 100 whenever the column first price is present and nonzero;
when the first price is missing or zero it is non-finite instead of
100 (the unconditional form of the claim is refuted by
`c7_counterexample`). -/
theorem c7_normalized_first_entry (tickers : List String)
    (prices : PriceTable) (res : MainResult) (s : String) (c : Col) (b : ℚ)
    (hrun : build_main tickers prices = .ok res)
    (hcol : getCol res.prices s = some c)
    (hb : c.headD none = some b) (hbne : b ≠ 0) :
    (getCol res.normPrices s).map (fun nc => nc.headD none)
      = some (some 100) := by
  obtain ⟨dropped, pcol, hd, hm, hp, hn, hr, hrets⟩ := build_main_ok hrun
  have hnp : getCol res.normPrices s = some (normCol c) := by
    rw [normTable_ok hn, getCol_mapCols, hcol]
    rfl
  rw [hnp]
  simp only [Option.map_some']
  congr 1
  cases c with
  | nil => simp at hb
  | cons v t =>
    have hv : v = some b := by simpa using hb
    subst hv
    unfold normCol
    simp [vmul, vdiv, hbne, mul_div_assoc, div_self]

/-- Counterexample for C7: with a missing first price the analytics
pass still succeeds, and the first normalized entry of that column is
NaN, not 100. -/
theorem c7_counterexample :
    build_main ["AAA"] T7tbl = .ok R7res
    ∧ (getCol R7res.normPrices "AAA").map (fun nc => nc.headD none)
        ≠ some (some (100 : ℚ)) :=
  ⟨T7_run, by decide⟩

/-- Witness for C7 applying the amended theorem on a frame with a
nonzero first price. -/
theorem c7_normalized_first_entry_witness :
    build_main ["AAA"] T7w = .ok R7w
    ∧ getCol R7w.prices "AAA" = some [some 4, some 5]
    ∧ ([some (4 : ℚ), some 5] : Col).headD none = some 4 ∧ ((4 : ℚ) ≠ 0)
    ∧ (getCol R7w.normPrices "AAA").map (fun nc => nc.headD none)
        = some (some 100) :=
  ⟨T7w_run, by decide, rfl, by decide,
    c7_normalized_first_entry ["AAA"] T7w R7w "AAA" [some 4, some 5] 4 T7w_run
      (by decide) rfl (by decide)⟩
